import Mathlib

/-!
Verification of the context-caching subsystem of the kanoa Gemini backend
(src/kanoa/backends/gemini.py), shallowly embedded in Lean.

Modelling conventions:
- Python `int` is modelled as `Int` (token counts) or `Nat` (string lengths).
- Python `float` cost arithmetic is modelled exactly over `Rat`; the source
  computes `tokens / 1_000_000 * price_per_million` and the spec requires this
  scaling to be preserved exactly.
- Python `None`-able values are `Option`; Python truthiness of an optional
  string (`if s:`) is `optStrTruthy` (false for `None` and for `""`).
- Calls to the remote Gemini SDK (`client.caches.create`, `client.caches.update`,
  `client.caches.delete`, `client.models.generate_content`) are out-of-scope
  collaborators; each call site receives the outcome of the corresponding remote
  call as an explicit `Except` argument (ok = the call returned, error = the call
  raised an exception).
- `hashlib.sha256(kb_context.encode()).hexdigest()[:16]` is an external
  library call; it is modelled as an explicit function argument
  `fp : String -> String` standing for that digest computation.
- The results of manager operations are returned together with flags recording
  which remote calls were performed on that run (`refresh_called`,
  `create_called`, `delete_called`) and whether the run returned from the
  fresh-creation branch (`created`); these flags record the branch structure
  that is explicit in the source and correspond to the per-operation
  `created_flag` of the spec.
-/

namespace Kanoa

/-- Python truthiness of an optional string: `None` and the empty string are
falsy, every other string is truthy. -/
def optStrTruthy : Option String → Bool
  | none => false
  | some s => !s.isEmpty

/-! ## Pricing table (GeminiBackend.PRICING, gemini.py lines 30-37) -/

def PRICING_input_short : Rat := 2
def PRICING_output_short : Rat := 12
def PRICING_input_long : Rat := 4
def PRICING_output_long : Rat := 18
def PRICING_cached_input : Rat := 1/2

/-! ## Usage accounting (GeminiBackend._calculate_usage, gemini.py lines 456-506) -/

/-- The fields of `response.usage_metadata` read by `_calculate_usage`:
`prompt_token_count`, `candidates_token_count`, and
`cached_content_token_count` (the latter read with `getattr` default 0). -/
structure UsageMetadata where
  prompt_token_count : Int
  candidates_token_count : Int
  cached_content_token_count : Int
  deriving DecidableEq

/-- UsageInfo from src/kanoa/core/types.py (the fields `_calculate_usage`
fills in: `input_tokens`, `output_tokens`, `cost`, `cached_tokens`). -/
structure UsageInfo where
  input_tokens : Int
  output_tokens : Int
  cost : Rat
  cached_tokens : Option Int
  deriving DecidableEq

/-- Core arithmetic of `_calculate_usage` (gemini.py lines 471-506), applied to
the token counts extracted from the response metadata.  Mirrors the source
exactly: the pricing tier is chosen by `input_tokens <= 200_000`; if
`cached_tokens > 0` the input cost is split between the cached rate and the
tier input rate; otherwise all input is billed at the tier input rate.  The
`cache_used` argument is accepted, as in the source signature
`_calculate_usage(self, response, cache_used: bool = False)`, and — exactly as
in the source — it is never read in the body. -/
def calculateUsage (input_tokens output_tokens cached_tokens : Int)
    (cache_used : Bool) : UsageInfo :=
  let non_cached_input : Int := input_tokens - cached_tokens
  let input_price : Rat :=
    if input_tokens ≤ 200000 then PRICING_input_short else PRICING_input_long
  let output_price : Rat :=
    if input_tokens ≤ 200000 then PRICING_output_short else PRICING_output_long
  let input_cost : Rat :=
    if cached_tokens > 0 then
      (cached_tokens : Rat) / 1000000 * PRICING_cached_input
        + (non_cached_input : Rat) / 1000000 * input_price
    else
      (input_tokens : Rat) / 1000000 * input_price
  let output_cost : Rat := (output_tokens : Rat) / 1000000 * output_price
  { input_tokens := input_tokens
    output_tokens := output_tokens
    cost := input_cost + output_cost
    cached_tokens := if cached_tokens > 0 then some cached_tokens else none }

/-- Embedding of `_calculate_usage` including the metadata extraction (gemini.py lines
467-475): when the response carries no usage metadata the function returns
`None`; otherwise it returns the record computed by `calculateUsage`.  The
source body contains no `raise` and no input validation, so the embedding is a
total function. -/
def calculateUsageMeta (usage_metadata : Option UsageMetadata)
    (cache_used : Bool) : Option UsageInfo :=
  match usage_metadata with
  | none => none
  | some m =>
      some (calculateUsage m.prompt_token_count m.candidates_token_count
        m.cached_content_token_count cache_used)

/-! ## Cache size gate (gemini.py lines 40-45 and 156-164) -/

/-- GeminiBackend.MIN_CACHE_TOKENS (gemini.py lines 40-45). -/
def MIN_CACHE_TOKENS : List (String × Nat) :=
  [("gemini-3-pro-preview", 2048),
   ("gemini-2.5-pro", 4096),
   ("gemini-2.5-flash", 1024),
   ("default", 1024)]

/-- Threshold lookup `self.MIN_CACHE_TOKENS.get(self.model,
self.MIN_CACHE_TOKENS["default"])` (gemini.py lines 159-161). -/
def minCacheTokens (model : String) : Nat :=
  (MIN_CACHE_TOKENS.lookup model).getD
    ((MIN_CACHE_TOKENS.lookup "default").getD 0)

/-- Token estimate `estimated_tokens = len(kb_context) // 4` (gemini.py
line 158): the
documented rough estimate of about 4 characters per token. -/
def estimatedTokens (kb_context : String) : Nat :=
  kb_context.length / 4

/-- The size gate of `create_kb_cache` (gemini.py lines 163-164): the content
qualifies for caching unless `estimated_tokens < min_tokens`. -/
def shouldCache (model : String) (kb_context : String) : Bool :=
  !(estimatedTokens kb_context < minCacheTokens model)

/-! ## Cache lifecycle state (GeminiBackend.__init__, gemini.py lines 94-97) -/

/-- The context-caching state held by a GeminiBackend instance:
`_cached_content_name`, `_cached_content_hash`, `_cache_token_count`. -/
structure CacheState where
  cached_content_name : Option String
  cached_content_hash : Option String
  cache_token_count : Int
  deriving DecidableEq

/-- The initial state set by `__init__`: no name, no hash, zero tokens. -/
def initState : CacheState := ⟨none, none, 0⟩

/-- The value returned by a successful `client.caches.create` call, as read by
`create_kb_cache`: the cache resource name, and — when the object carries
`usage_metadata` — its `total_token_count` (the `getattr` default 0 is folded
into the carried value). -/
structure CreateResp where
  name : String
  usage_metadata : Option Int
  deriving DecidableEq

/-- The outcome of one `create_kb_cache` run: the updated backend state, the
returned cache name (`None` when caching is skipped or failed), and
instrumentation of the branch taken: `created` is true exactly when the run
returned from the successful `client.caches.create` branch (the fresh-creation
outcome, the per-operation `created_flag` of the spec), `refresh_called` /
`create_called` record whether `client.caches.update` / `client.caches.create`
were invoked on this run. -/
structure EnsureResult where
  state : CacheState
  cache_name : Option String
  created : Bool
  refresh_called : Bool
  create_called : Bool
  deriving DecidableEq

/-- The tail of `create_kb_cache` (gemini.py lines 220-243): call
`client.caches.create`; on success store the returned name and the content
hash, update the token count when the response carries usage metadata, and
return the name; on any exception fall back to no cache, leaving the state
untouched. -/
def doCreate (st : CacheState) (content_hash : String)
    (createResult : Except String CreateResp) (refresh_called : Bool) :
    EnsureResult :=
  match createResult with
  | Except.ok cache =>
      { state :=
          { cached_content_name := some cache.name
            cached_content_hash := some content_hash
            cache_token_count :=
              match cache.usage_metadata with
              | some n => n
              | none => st.cache_token_count }
        cache_name := some cache.name
        created := true
        refresh_called := refresh_called
        create_called := true }
  | Except.error _ =>
      { state := st
        cache_name := none
        created := false
        refresh_called := refresh_called
        create_called := true }

/-- GeminiBackend.create_kb_cache (gemini.py lines 133-243), the spec
operation `ensure_cache`.  Arguments beyond the backend configuration and state:
`fp` stands for the sha256-prefix fingerprint, `refreshResult` for the outcome
of `client.caches.update` (TTL refresh) should it be called, and
`createResult` for the outcome of `client.caches.create` should it be called.
Control flow, exactly as in the source:
1. if caching is disabled, return `None`;
2. if `estimated_tokens < min_tokens`, return `None`;
3. compute `content_hash`;
4. if `self._cached_content_name` is truthy and `self._cached_content_hash ==
   content_hash`: try the TTL refresh; on success return the held name; on
   exception set `_cached_content_name = None` and fall through;
5. call create (see `doCreate`). -/
def createKbCache (enable_caching : Bool) (model : String) (st : CacheState)
    (fp : String → String)
    (refreshResult : Except String Unit)
    (createResult : Except String CreateResp)
    (kb_context : String) : EnsureResult :=
  if enable_caching = false then
    { state := st, cache_name := none, created := false,
      refresh_called := false, create_called := false }
  else if shouldCache model kb_context = false then
    { state := st, cache_name := none, created := false,
      refresh_called := false, create_called := false }
  else
    let content_hash := fp kb_context
    if optStrTruthy st.cached_content_name = true ∧
        st.cached_content_hash = some content_hash then
      match refreshResult with
      | Except.ok _ =>
          { state := st, cache_name := st.cached_content_name,
            created := false, refresh_called := true, create_called := false }
      | Except.error _ =>
          doCreate { st with cached_content_name := none } content_hash
            createResult true
    else
      doCreate st content_hash createResult false

/-- The outcome of one `clear_cache` run: the updated state and whether
`client.caches.delete` was invoked. -/
structure ClearResult where
  state : CacheState
  delete_called : Bool
  deriving DecidableEq

/-- GeminiBackend.clear_cache (gemini.py lines 265-275): when
`_cached_content_name` is truthy, call `client.caches.delete` (`deleteResult`
is its outcome; any exception is swallowed by the bare `except: pass`) and in
the `finally` block reset name, hash and token count; when the name is falsy
the body does nothing at all. -/
def clearCache (st : CacheState) (deleteResult : Except String Unit) :
    ClearResult :=
  if optStrTruthy st.cached_content_name = true then
    { state := ⟨none, none, 0⟩, delete_called := true }
  else
    { state := st, delete_called := false }

/-! ## Prompt building (GeminiBackend._build_prompt, gemini.py lines 403-454) -/

/-- Python `sep.join(parts)`. -/
def pyJoin (sep : String) : List String → String
  | [] => ""
  | [x] => x
  | x :: y :: t => x ++ sep ++ pyJoin sep (y :: t)

/-- Text of the knowledge-base block before the interpolated `kb_context`
(gemini.py lines 418-422); the backslash line continuations of the Python
triple-quoted f-string are resolved. -/
def kbSectionPre : String :=
  "You are an expert data analyst with access to domain-specific knowledge.\n\n# Knowledge Base\n\n"

/-- Text of the knowledge-base block after the interpolated `kb_context`
(gemini.py lines 424-427). -/
def kbSectionPost : String :=
  "\n\nUse this information to provide informed, technically accurate interpretations.\n"

/-- The knowledge-base block appended to `parts` when `kb_context` is truthy
(gemini.py lines 416-428). -/
def kbSectionText (kb_context : String) : String :=
  kbSectionPre ++ kb_context ++ kbSectionPost

/-- The fixed instruction line (gemini.py lines 430-432). -/
def analyzeLine : String :=
  "Analyze this analytical output and provide a technical interpretation."

/-- The fixed closing block (gemini.py lines 440-452). -/
def provideSection : String :=
  "\n\nProvide:\n1. **Summary**: What the output shows\n2. **Key Observations**: Notable patterns and trends\n3. **Technical Interpretation**: Insights based on domain knowledge\n4. **Potential Issues**: Data quality concerns or anomalies\n5. **Recommendations**: Suggestions for further analysis\n\nUse markdown formatting. Be concise but technically precise.\n"

/-- GeminiBackend._build_prompt: a truthy `custom_prompt` is returned as-is;
otherwise the prompt is the newline-join of the accumulated parts, with the
knowledge-base block present exactly when `kb_context` is truthy. -/
def buildPrompt (context focus kb_context custom_prompt : Option String) :
    String :=
  if optStrTruthy custom_prompt = true then custom_prompt.getD ""
  else
    let parts : List String :=
      (if optStrTruthy kb_context = true then
        [kbSectionText (kb_context.getD "")] else [])
      ++ [analyzeLine]
      ++ (if optStrTruthy context = true then
        ["\n**Context**: " ++ context.getD ""] else [])
      ++ (if optStrTruthy focus = true then
        ["\n**Analysis Focus**: " ++ focus.getD ""] else [])
      ++ [provideSection]
    pyJoin "\n" parts

/-- "the string `needle` occurs inline in `hay`". -/
def inlineIn (needle hay : String) : Prop :=
  ∃ a b, hay = a ++ needle ++ b

/-! ## The interpret request path (GeminiBackend.interpret, gemini.py 277-401) -/

/-- One element of the `contents` list sent to `generate_content`: an inline
image part (from the figure), a text part, or a PDF file-data part referencing
an uploaded file by URI. -/
inductive ContentPart where
  | image (data : String)
  | text (t : String)
  | pdf (uri : String)
  deriving DecidableEq

/-- Whether a content part is a PDF file-data part. -/
def ContentPart.isPdf : ContentPart → Bool
  | ContentPart.pdf _ => true
  | _ => false

/-- The fields of a `generate_content` response read by `interpret`:
`response.text` and `response.usage_metadata`. -/
structure GenResponse where
  text : Option String
  usage_metadata : Option UsageMetadata
  deriving DecidableEq

/-- The metadata dict attached to a successful InterpretationResult
(gemini.py lines 391-396). -/
structure GeminiMetadata where
  model : String
  pdf_count : Nat
  cache_used : Bool
  cache_name : Option String
  deriving DecidableEq

/-- InterpretationResult from src/kanoa/core/types.py, with the metadata dict
specialised to the keys the Gemini backend writes. -/
structure InterpretationResult where
  text : String
  backend : String
  usage : Option UsageInfo
  metadata : Option GeminiMetadata
  deriving DecidableEq

/-- The observable outcome of one `interpret` run: the final caching state,
the `contents` list handed to `generate_content`, the prompt text appended as
its final part, the cache name passed via `cached_content` (when truthy), and
the returned InterpretationResult. -/
structure InterpretOutcome where
  state : CacheState
  contents : List ContentPart
  prompt : String
  cache_name : Option String
  result : InterpretationResult
  deriving DecidableEq

/-- Step 1 of `interpret` (gemini.py lines 296-299): when `kb_context` is
truthy and caching is enabled, run `create_kb_cache`; the pair is the updated
backend state and the obtained `cache_name`. -/
def interpretCacheStep (enable_caching : Bool) (model : String)
    (st : CacheState) (fp : String → String)
    (refreshResult : Except String Unit)
    (createResult : Except String CreateResp)
    (kb_context : Option String) : CacheState × Option String :=
  if optStrTruthy kb_context = true ∧ enable_caching = true then
    let r := createKbCache enable_caching model st fp refreshResult
      createResult (kb_context.getD "")
    (r.state, r.cache_name)
  else (st, none)

/-- The prompt built at gemini.py lines 346-352: `kb_context` is replaced by
`None` when `cache_name` is truthy. -/
def interpretPrompt (cache_name : Option String)
    (context focus kb_context custom_prompt : Option String) : String :=
  buildPrompt context focus
    (if optStrTruthy cache_name = true then none else kb_context)
    custom_prompt

/-- The `content_parts` list assembled at gemini.py lines 301-355: the figure
part, the data part, the uploaded-PDF parts only when `cache_name` is falsy,
and the prompt text as the final part. -/
def interpretContents (cache_name : Option String)
    (uploaded_pdfs : List String) (fig : Option String) (data : Option String)
    (prompt : String) : List ContentPart :=
  let figParts : List ContentPart :=
    match fig with
    | some img => [ContentPart.image img]
    | none => []
  let dataParts : List ContentPart :=
    match data with
    | some d => [ContentPart.text ("Data to analyze:\n```\n" ++ d ++ "\n```")]
    | none => []
  let pdfParts : List ContentPart :=
    if optStrTruthy cache_name = true then []
    else uploaded_pdfs.map ContentPart.pdf
  figParts ++ dataParts ++ pdfParts ++ [ContentPart.text prompt]

/-- GeminiBackend.interpret (gemini.py lines 277-401).  `fig` and `data` stand
for the already-converted figure image (`_fig_to_base64`, base64-decoded) and
data text (`_data_to_text`) — both out-of-scope converters; `uploaded_pdfs`
for the URIs of `self.uploaded_pdfs.values()`; `genResult` for the outcome of
the `client.models.generate_content` call (error = the call raised).
Control flow, exactly as in the source: run the cache step, assemble the
contents and prompt, then call `generate_content`; on an exception return an
error-text result with `usage=None`; on success return the decorated text,
the usage record computed by `_calculate_usage(response, cache_name is not
None)`, and the metadata dict. -/
def interpret (enable_caching : Bool) (model : String) (st : CacheState)
    (fp : String → String)
    (refreshResult : Except String Unit)
    (createResult : Except String CreateResp)
    (uploaded_pdfs : List String)
    (genResult : Except String GenResponse)
    (fig : Option String) (data : Option String)
    (context focus kb_context custom_prompt : Option String) :
    InterpretOutcome :=
  let cacheStep : CacheState × Option String := interpretCacheStep
    enable_caching model st fp refreshResult createResult kb_context
  let st1 := cacheStep.1
  let cache_name := cacheStep.2
  let prompt := interpretPrompt cache_name context focus kb_context
    custom_prompt
  let content_parts := interpretContents cache_name uploaded_pdfs fig data
    prompt
  match genResult with
  | Except.error e =>
      { state := st1, contents := content_parts, prompt := prompt,
        cache_name := cache_name,
        result :=
          { text := "❌ **Error**: " ++ e, backend := "gemini-3",
            usage := none, metadata := none } }
  | Except.ok response =>
      let interpretation := response.text.getD ""
      let usage := calculateUsageMeta response.usage_metadata cache_name.isSome
      let withGen := interpretation ++ "\n\n---\n*Generated by " ++ model ++ "*"
      let withPdf :=
        if uploaded_pdfs.isEmpty then withGen
        else withGen ++ " *with " ++ toString uploaded_pdfs.length
          ++ " PDF references*"
      let finalText :=
        if optStrTruthy cache_name = true then withPdf ++ " *(KB cached)*"
        else withPdf
      { state := st1, contents := content_parts, prompt := prompt,
        cache_name := cache_name,
        result :=
          { text := finalText, backend := "gemini-3", usage := usage,
            metadata := some
              { model := model, pdf_count := uploaded_pdfs.length,
                cache_used := cache_name.isSome, cache_name := cache_name } } }

/-! ## Concrete test material used by witnesses and counterexamples -/

/-- A 4096-character content string: estimated at exactly 1024 tokens. -/
def kbA : String := String.mk (List.replicate 4096 'a')

/-- A 4100-character content string, different from `kbA`. -/
def kbB : String := String.mk (List.replicate 4100 'b')

/-- A 4092-character content string: estimated at 1023 tokens, one below the
1024 threshold. -/
def kbSmall : String := String.mk (List.replicate 4092 'a')

/-- A stand-in for the sha256 digest: constant, adequate for runs that only
ever fingerprint one content. -/
def fpConst : String → String := fun _ => "h1"

/-- A stand-in for the sha256 digest that distinguishes the two concrete
contents `kbA` (4096 chars) and `kbB` (4100 chars) used in the scenarios, as
the real digest would with overwhelming probability. -/
def fpLen : String → String := fun s => if s.length = 4096 then "h1" else "h2"

/-- A 28-character knowledge-base string used in the C9 counterexample. -/
def kbSentinel : String := "KNOWLEDGE BASE SENTINEL TEXT"

/-! ## Shared helper lemmas -/

theorem optStrTruthy_none : optStrTruthy none = false := rfl

theorem optStrTruthy_some (s : String) (h : s ≠ "") :
    optStrTruthy (some s) = true := by
  cases hs : s.isEmpty with
  | false => simp [optStrTruthy, hs]
  | true => exact absurd ((String.isEmpty_iff s).mp hs) h

theorem kbA_length : kbA.length = 4096 := by
  show (List.replicate 4096 'a').length = 4096
  exact List.length_replicate 4096 'a'

theorem kbB_length : kbB.length = 4100 := by
  show (List.replicate 4100 'b').length = 4100
  exact List.length_replicate 4100 'b'

theorem kbSmall_length : kbSmall.length = 4092 := by
  show (List.replicate 4092 'a').length = 4092
  exact List.length_replicate 4092 'a'

theorem kbA_ne_empty : kbA ≠ "" := by
  intro h
  have hl := kbA_length
  rw [h] at hl
  exact absurd hl (by decide)

theorem shouldCache_flash_kbA : shouldCache "gemini-2.5-flash" kbA = true := by
  unfold shouldCache estimatedTokens
  rw [kbA_length]
  decide

theorem shouldCache_flash_kbB : shouldCache "gemini-2.5-flash" kbB = true := by
  unfold shouldCache estimatedTokens
  rw [kbB_length]
  decide

theorem shouldCache_flash_kbSmall :
    shouldCache "gemini-2.5-flash" kbSmall = false := by
  unfold shouldCache estimatedTokens
  rw [kbSmall_length]
  decide

/-- Every entry of the threshold table, and the default, is at least 1024. -/
theorem minCacheTokens_ge (model : String) : 1024 ≤ minCacheTokens model := by
  simp only [minCacheTokens, MIN_CACHE_TOKENS, List.lookup]
  repeat' split <;> simp_all

theorem fpLen_kbA : fpLen kbA = "h1" := by
  unfold fpLen
  rw [kbA_length]
  simp

theorem fpLen_kbB : fpLen kbB = "h2" := by
  unfold fpLen
  rw [kbB_length]
  simp

theorem pyJoin_cons_cons (sep a b : String) (t : List String) :
    pyJoin sep (a :: b :: t) = a ++ sep ++ pyJoin sep (b :: t) := rfl

theorem inlineIn_head (needle sep pr po b : String) (t : List String) :
    inlineIn needle (pyJoin sep ((pr ++ needle ++ po) :: b :: t)) := by
  rw [pyJoin_cons_cons]
  exact ⟨pr, po ++ sep ++ pyJoin sep (b :: t), by simp [String.append_assoc]⟩

/-- When `kb_context` is truthy and no custom prompt is supplied, the built
prompt contains the knowledge-base text inline. -/
theorem buildPrompt_inline (context focus kb cp : Option String)
    (hkb : optStrTruthy kb = true) (hcp : optStrTruthy cp = false) :
    inlineIn (kb.getD "") (buildPrompt context focus kb cp) := by
  unfold buildPrompt
  rw [hcp]
  simp only [Bool.false_eq_true, if_false, hkb, if_true, List.cons_append,
    List.nil_append]
  show inlineIn (kb.getD "")
    (pyJoin "\n"
      ((kbSectionPre ++ kb.getD "" ++ kbSectionPost) :: analyzeLine :: _))
  exact inlineIn_head _ _ _ _ _ _

/-- The cache name of an `interpret` outcome is the one obtained by the cache
step, in both generation branches. -/
theorem interpret_cache_name (enable : Bool) (model : String) (st : CacheState)
    (fp : String → String) (rr : Except String Unit)
    (cr : Except String CreateResp) (pdfs : List String)
    (gen : Except String GenResponse)
    (fig data context focus kb cp : Option String) :
    (interpret enable model st fp rr cr pdfs gen
      fig data context focus kb cp).cache_name =
      (interpretCacheStep enable model st fp rr cr kb).2 := by
  cases gen <;> rfl

/-- The prompt of an `interpret` outcome is the one built by
`interpretPrompt`, in both generation branches. -/
theorem interpret_prompt (enable : Bool) (model : String) (st : CacheState)
    (fp : String → String) (rr : Except String Unit)
    (cr : Except String CreateResp) (pdfs : List String)
    (gen : Except String GenResponse)
    (fig data context focus kb cp : Option String) :
    (interpret enable model st fp rr cr pdfs gen
      fig data context focus kb cp).prompt =
      interpretPrompt (interpretCacheStep enable model st fp rr cr kb).2
        context focus kb cp := by
  cases gen <;> rfl

/-- The contents of an `interpret` outcome are the ones assembled by
`interpretContents`, in both generation branches. -/
theorem interpret_contents_eq (enable : Bool) (model : String)
    (st : CacheState) (fp : String → String) (rr : Except String Unit)
    (cr : Except String CreateResp) (pdfs : List String)
    (gen : Except String GenResponse)
    (fig data context focus kb cp : Option String) :
    (interpret enable model st fp rr cr pdfs gen
      fig data context focus kb cp).contents =
      interpretContents (interpretCacheStep enable model st fp rr cr kb).2
        pdfs fig data
        (interpretPrompt (interpretCacheStep enable model st fp rr cr kb).2
          context focus kb cp) := by
  cases gen <;> rfl

theorem kbSentinel_length : kbSentinel.length = 28 := by decide

/-! ## The claims -/

/-- Claim C1: the claim (and the unit test test_usage_with_cached_tokens)
require that with cache_created = true the entire input is billed at the
standard rate, giving cost 0.026 = 13/500 at the quoted input.  This theorem
evaluates the code at that failing input: `_calculate_usage` has no
cache_created parameter and never reads its cache_used flag, so it applies the
split-rate formula and returns 0.014 = 7/500, not 0.026; the third conjunct
shows the flag has no effect on the result at all. -/
theorem claim_C1_code_behavior :
    (calculateUsage 10000 500 8000 true).cost = 7/500 ∧
    (7 : Rat)/500 ≠ 13/500 ∧
    (∀ (i o c : Int) (b : Bool),
      calculateUsage i o c b = calculateUsage i o c false) := by
  refine ⟨?_, by norm_num, fun i o c b => rfl⟩
  norm_num [calculateUsage, PRICING_cached_input, PRICING_input_short,
    PRICING_output_short]

/-- Claim C2, counterexample: a handle for different, older content survives a
failed create.  From the empty state a successful create of `kbA` stores the
handle (caches/old, h1); a later call with the different content `kbB` (hash
h2) skips the reuse branch, calls create, create fails — the call returns
(None, false) as claimed, but the old handle is still held, so the manager is
not in the EMPTY state the claim requires. -/
theorem counterexample_C2 :
    (createKbCache true "gemini-2.5-flash" initState fpLen (Except.ok ())
      (Except.ok ⟨"caches/old", some 3000⟩) kbA).state =
      ⟨some "caches/old", some "h1", 3000⟩ ∧
    (createKbCache true "gemini-2.5-flash" ⟨some "caches/old", some "h1", 3000⟩
      fpLen (Except.ok ()) (Except.error "service unavailable") kbB).cache_name
      = none ∧
    (createKbCache true "gemini-2.5-flash" ⟨some "caches/old", some "h1", 3000⟩
      fpLen (Except.ok ()) (Except.error "service unavailable") kbB).created
      = false ∧
    (createKbCache true "gemini-2.5-flash" ⟨some "caches/old", some "h1", 3000⟩
      fpLen (Except.ok ()) (Except.error "service unavailable")
      kbB).state.cached_content_name = some "caches/old" ∧
    (some "caches/old" : Option String) ≠ none := by
  refine ⟨?_, ?_, ?_, ?_, by simp⟩ <;>
    simp [createKbCache, shouldCache_flash_kbA, shouldCache_flash_kbB,
      doCreate, initState, optStrTruthy_none, fpLen_kbA, fpLen_kbB,
      optStrTruthy_some "caches/old" (by decide)]

/-- Claim C2, amended: every `create_kb_cache` call in which the remote create
operation fails returns (None, false) without raising and leaves hash and
token count unchanged; the manager afterwards holds no handle when it held
none before the call, or when the held handle matched the content (the
refresh-failure path cleared it); but a handle held for different, older
content remains held. -/
theorem claim_C2 (enable : Bool) (model : String) (st : CacheState)
    (fp : String → String) (rr : Except String Unit) (e : String)
    (kb : String)
    (hcc : (createKbCache enable model st fp rr (Except.error e) kb).create_called = true) :
    (createKbCache enable model st fp rr (Except.error e) kb).cache_name = none ∧
    (createKbCache enable model st fp rr (Except.error e) kb).created = false ∧
    (createKbCache enable model st fp rr (Except.error e) kb).state.cached_content_hash = st.cached_content_hash ∧
    (createKbCache enable model st fp rr (Except.error e) kb).state.cache_token_count = st.cache_token_count ∧
    ((optStrTruthy st.cached_content_name = true ∧
        st.cached_content_hash = some (fp kb)) →
      (createKbCache enable model st fp rr (Except.error e) kb).state.cached_content_name = none) ∧
    (¬(optStrTruthy st.cached_content_name = true ∧
        st.cached_content_hash = some (fp kb)) →
      (createKbCache enable model st fp rr (Except.error e) kb).state.cached_content_name = st.cached_content_name) := by
  cases rr <;>
    simp only [createKbCache, doCreate] at hcc ⊢ <;>
    split_ifs at hcc ⊢ <;>
    simp_all

/-- Witness for claim C2: a concrete failing create from the empty state. -/
theorem claim_C2_witness :
    (createKbCache true "gemini-2.5-flash" initState fpConst (Except.ok ())
      (Except.error "boom") kbA).create_called = true ∧
    (createKbCache true "gemini-2.5-flash" initState fpConst (Except.ok ())
      (Except.error "boom") kbA).cache_name = none ∧
    (createKbCache true "gemini-2.5-flash" initState fpConst (Except.ok ())
      (Except.error "boom") kbA).created = false ∧
    (createKbCache true "gemini-2.5-flash" initState fpConst (Except.ok ())
      (Except.error "boom") kbA).state.cached_content_name = none := by
  have hcc : (createKbCache true "gemini-2.5-flash" initState fpConst
      (Except.ok ()) (Except.error "boom") kbA).create_called = true := by
    simp [createKbCache, shouldCache_flash_kbA, doCreate, initState,
      optStrTruthy_none]
  have h := claim_C2 true "gemini-2.5-flash" initState fpConst (Except.ok ())
    "boom" kbA hcc
  exact ⟨hcc, h.1, h.2.1, by
    rw [h.2.2.2.2.2 (by simp [initState, optStrTruthy_none])]
    rfl⟩

/-- Claim C3: with a held handle whose hash matches the content, a TTL refresh
failure does not propagate; the handle is cleared, create is attempted, and
the call returns the result of that create — the new identifier on success
(storing the new handle), None on failure (leaving no held handle). -/
theorem claim_C3 (model : String) (st : CacheState) (fp : String → String)
    (e : String) (cr : Except String CreateResp) (kb : String)
    (hgate : shouldCache model kb = true)
    (hname : optStrTruthy st.cached_content_name = true)
    (hhash : st.cached_content_hash = some (fp kb)) :
    (createKbCache true model st fp (Except.error e) cr kb).create_called = true ∧
    (∀ resp : CreateResp, cr = Except.ok resp →
      (createKbCache true model st fp (Except.error e) cr kb).cache_name = some resp.name ∧
      (createKbCache true model st fp (Except.error e) cr kb).created = true ∧
      (createKbCache true model st fp (Except.error e) cr kb).state.cached_content_name = some resp.name ∧
      (createKbCache true model st fp (Except.error e) cr kb).state.cached_content_hash = some (fp kb)) ∧
    (∀ err : String, cr = Except.error err →
      (createKbCache true model st fp (Except.error e) cr kb).cache_name = none ∧
      (createKbCache true model st fp (Except.error e) cr kb).created = false ∧
      (createKbCache true model st fp (Except.error e) cr kb).state.cached_content_name = none) := by
  cases cr <;> simp_all [createKbCache, doCreate, hgate, hname, hhash]

/-- Witness for claim C3: concrete refresh failure followed by a successful
recreate. -/
theorem claim_C3_witness :
    shouldCache "gemini-2.5-flash" kbA = true ∧
    optStrTruthy (some "caches/c1") = true ∧
    (createKbCache true "gemini-2.5-flash" ⟨some "caches/c1", some "h1", 3000⟩
      fpConst (Except.error "expired") (Except.ok ⟨"caches/c2", some 4000⟩)
      kbA).cache_name = some "caches/c2" ∧
    (createKbCache true "gemini-2.5-flash" ⟨some "caches/c1", some "h1", 3000⟩
      fpConst (Except.error "expired") (Except.ok ⟨"caches/c2", some 4000⟩)
      kbA).created = true ∧
    (createKbCache true "gemini-2.5-flash" ⟨some "caches/c1", some "h1", 3000⟩
      fpConst (Except.error "expired") (Except.ok ⟨"caches/c2", some 4000⟩)
      kbA).state.cached_content_name = some "caches/c2" := by
  have ht : optStrTruthy (some "caches/c1") = true :=
    optStrTruthy_some "caches/c1" (by decide)
  have h := claim_C3 "gemini-2.5-flash" ⟨some "caches/c1", some "h1", 3000⟩
    fpConst "expired" (Except.ok ⟨"caches/c2", some 4000⟩) kbA
    shouldCache_flash_kbA ht rfl
  have hok := h.2.1 ⟨"caches/c2", some 4000⟩ rfl
  exact ⟨shouldCache_flash_kbA, ht, hok.1, hok.2.1, hok.2.2.1⟩

/-- Claim C4: with cache_created = false and cached_tokens > 0 the cost is the
split formula — cached tokens at the cached rate plus the remaining input at
the standard rate of the tier selected by input size, plus output at the tier
output rate; at the quoted concrete input the cost is 0.014 = 7/500. -/
theorem claim_C4 (i o c : Int) (hi : 0 ≤ i) (ho : 0 ≤ o) (hc : 0 < c) :
    (calculateUsage i o c false).cost =
      (c : Rat) / 1000000 * PRICING_cached_input
        + ((i : Rat) - (c : Rat)) / 1000000 *
          (if i ≤ 200000 then PRICING_input_short else PRICING_input_long)
        + (o : Rat) / 1000000 *
          (if i ≤ 200000 then PRICING_output_short else PRICING_output_long) ∧
    (calculateUsage 10000 500 8000 false).cost = 7/500 := by
  constructor
  · simp only [calculateUsage]
    rw [if_pos hc]
    by_cases ht : i ≤ 200000 <;> simp [ht]
  · norm_num [calculateUsage, PRICING_cached_input, PRICING_input_short,
      PRICING_output_short]

/-- Witness for claim C4 at the concrete quoted input. -/
theorem claim_C4_witness :
    (0 : Int) ≤ 10000 ∧ (0 : Int) ≤ 500 ∧ (0 : Int) < 8000 ∧
    (calculateUsage 10000 500 8000 false).cost = 7/500 := by
  have h := claim_C4 10000 500 8000 (by norm_num) (by norm_num) (by norm_num)
  exact ⟨by norm_num, by norm_num, by norm_num, h.2⟩

/-- Claim C5: the size gate passes iff the estimated token count (length
divided by 4) meets or exceeds the threshold for the model, with the default
threshold 1024 for an unknown model; a 4096-character string qualifies at
threshold 1024, a 4092-character string does not, and empty content never
qualifies for any model. -/
theorem claim_C5 :
    (∀ (model kb : String),
      shouldCache model kb = true ↔ minCacheTokens model ≤ estimatedTokens kb) ∧
    MIN_CACHE_TOKENS.lookup "some-unknown-model" = none ∧
    minCacheTokens "some-unknown-model" = 1024 ∧
    kbA.length = 4096 ∧ shouldCache "gemini-2.5-flash" kbA = true ∧
    minCacheTokens "gemini-2.5-flash" = 1024 ∧
    kbSmall.length = 4092 ∧ shouldCache "gemini-2.5-flash" kbSmall = false ∧
    (∀ model : String, shouldCache model "" = false) := by
  refine ⟨?_, by decide, by decide, kbA_length, shouldCache_flash_kbA,
    by decide, kbSmall_length, shouldCache_flash_kbSmall, ?_⟩
  · intro model kb
    simp [shouldCache, Nat.not_lt]
  · intro model
    have h := minCacheTokens_ge model
    simp [shouldCache, estimatedTokens]
    omega

/-- Claim C6, counterexample: `clear_cache` does not always leave the local
state empty.  The whole body of `clear_cache` is guarded by the truthiness of
`_cached_content_name`, so in the reachable state (name=None, hash=h1,
token_count=3000) — produced by a refresh failure followed by a create
failure — `clear_cache` is a no-op that leaves a non-None hash and a non-zero
token count.  The first two conjuncts show the state is reachable from a
held-handle state; the rest show `clear_cache` leaves it unchanged without
calling delete. -/
theorem counterexample_C6 :
    (createKbCache true "gemini-2.5-flash" initState fpConst (Except.ok ())
      (Except.ok ⟨"caches/c1", some 3000⟩) kbA).state =
      ⟨some "caches/c1", some "h1", 3000⟩ ∧
    (createKbCache true "gemini-2.5-flash" ⟨some "caches/c1", some "h1", 3000⟩
      fpConst (Except.error "cache expired") (Except.error "quota exceeded")
      kbA).state = ⟨none, some "h1", 3000⟩ ∧
    clearCache ⟨none, some "h1", 3000⟩ (Except.ok ()) =
      ⟨⟨none, some "h1", 3000⟩, false⟩ ∧
    (some "h1" : Option String) ≠ none ∧ (3000 : Int) ≠ 0 := by
  refine ⟨?_, ?_, by simp [clearCache, optStrTruthy_none], by simp,
    by norm_num⟩
  · simp [createKbCache, shouldCache_flash_kbA, doCreate, initState,
      optStrTruthy_none, fpConst]
  · simp [createKbCache, shouldCache_flash_kbA, doCreate, fpConst,
      optStrTruthy_some "caches/c1" (by decide)]

/-- Claim C6, amended: `clear_cache` requests remote deletion exactly when a
handle is held, ignores the outcome of the delete call entirely, and resets
handle, hash and token count when a handle was held; with no held handle it is
a no-op (which can leave a residual hash and token count, see the
counterexample); and it is idempotent as a state transformer. -/
theorem claim_C6 (st : CacheState) (d : Except String Unit) :
    (optStrTruthy st.cached_content_name = true →
      (clearCache st d).delete_called = true ∧
      (clearCache st d).state = ⟨none, none, 0⟩) ∧
    (optStrTruthy st.cached_content_name = false →
      (clearCache st d).delete_called = false ∧ (clearCache st d).state = st) ∧
    (∀ d2 : Except String Unit, clearCache st d2 = clearCache st d) ∧
    (∀ d2 : Except String Unit,
      (clearCache (clearCache st d).state d2).state = (clearCache st d).state) := by
  cases h : optStrTruthy st.cached_content_name <;>
    simp [clearCache, h, optStrTruthy_none]

/-- Witness for claim C6: a concrete clear of a held handle with the remote
delete failing. -/
theorem claim_C6_witness :
    optStrTruthy (⟨some "caches/c1", some "h1", 3000⟩ : CacheState).cached_content_name = true ∧
    (clearCache ⟨some "caches/c1", some "h1", 3000⟩ (Except.error "already gone")).delete_called = true ∧
    (clearCache ⟨some "caches/c1", some "h1", 3000⟩ (Except.error "already gone")).state = ⟨none, none, 0⟩ := by
  have ht : optStrTruthy (⟨some "caches/c1", some "h1", 3000⟩ : CacheState).cached_content_name = true :=
    optStrTruthy_some "caches/c1" (by decide)
  have h := (claim_C6 ⟨some "caches/c1", some "h1", 3000⟩
    (Except.error "already gone")).1 ht
  exact ⟨ht, h.1, h.2⟩

/-- Claim C7: from a state holding no handle, two successive `ensure_cache`
calls with the same gate-passing content — create succeeding the first time,
TTL refresh succeeding the second — yield created=true then created=false,
the second call performs no create, and both calls return the same
identifier. -/
theorem claim_C7 (model kb : String) (fp : String → String)
    (st0 : CacheState) (rr1 : Except String Unit) (resp : CreateResp)
    (cr2 : Except String CreateResp) (r1 r2 : EnsureResult)
    (hgate : shouldCache model kb = true)
    (hempty : optStrTruthy st0.cached_content_name = false)
    (hname : resp.name ≠ "")
    (h1 : createKbCache true model st0 fp rr1 (Except.ok resp) kb = r1)
    (h2 : createKbCache true model r1.state fp (Except.ok ()) cr2 kb = r2) :
    r1.created = true ∧ r1.cache_name = some resp.name ∧
    r2.created = false ∧ r2.create_called = false ∧
    r2.cache_name = some resp.name := by
  have hc1 : ¬(optStrTruthy st0.cached_content_name = true ∧
      st0.cached_content_hash = some (fp kb)) := by
    simp [hempty]
  have e1 : r1 = doCreate st0 (fp kb) (Except.ok resp) false := by
    rw [← h1]
    simp [createKbCache, hgate, hc1]
  have hr1state : r1.state = ⟨some resp.name, some (fp kb),
      match resp.usage_metadata with
      | some n => n
      | none => st0.cache_token_count⟩ := by
    rw [e1]
    rfl
  have hc2 : optStrTruthy r1.state.cached_content_name = true ∧
      r1.state.cached_content_hash = some (fp kb) := by
    rw [hr1state]
    exact ⟨optStrTruthy_some resp.name hname, rfl⟩
  have e2 : r2 = ⟨r1.state, r1.state.cached_content_name, false, true, false⟩ := by
    rw [← h2]
    simp [createKbCache, hgate, hc2]
  refine ⟨by rw [e1]; rfl, by rw [e1]; rfl, by rw [e2], by rw [e2], ?_⟩
  rw [e2]
  show r1.state.cached_content_name = some resp.name
  rw [hr1state]

/-- Witness for claim C7: a concrete create-then-reuse pair of calls. -/
theorem claim_C7_witness :
    shouldCache "gemini-2.5-flash" kbA = true ∧
    (createKbCache true "gemini-2.5-flash" initState fpConst (Except.ok ())
      (Except.ok ⟨"caches/c1", some 3000⟩) kbA).created = true ∧
    (createKbCache true "gemini-2.5-flash" initState fpConst (Except.ok ())
      (Except.ok ⟨"caches/c1", some 3000⟩) kbA).cache_name = some "caches/c1" ∧
    (createKbCache true "gemini-2.5-flash"
      (createKbCache true "gemini-2.5-flash" initState fpConst (Except.ok ())
        (Except.ok ⟨"caches/c1", some 3000⟩) kbA).state fpConst
      (Except.ok ()) (Except.error "never called") kbA).created = false ∧
    (createKbCache true "gemini-2.5-flash"
      (createKbCache true "gemini-2.5-flash" initState fpConst (Except.ok ())
        (Except.ok ⟨"caches/c1", some 3000⟩) kbA).state fpConst
      (Except.ok ()) (Except.error "never called") kbA).create_called = false ∧
    (createKbCache true "gemini-2.5-flash"
      (createKbCache true "gemini-2.5-flash" initState fpConst (Except.ok ())
        (Except.ok ⟨"caches/c1", some 3000⟩) kbA).state fpConst
      (Except.ok ()) (Except.error "never called") kbA).cache_name
      = some "caches/c1" := by
  have h := claim_C7 "gemini-2.5-flash" kbA fpConst initState (Except.ok ())
    ⟨"caches/c1", some 3000⟩ (Except.error "never called") _ _
    shouldCache_flash_kbA rfl (by decide) rfl rfl
  exact ⟨shouldCache_flash_kbA, h.1, h.2.1, h.2.2.1, h.2.2.2.1, h.2.2.2.2⟩

/-- Claim C8, counterexample: at a negative token count the usage calculation
does not raise — the body of `_calculate_usage` contains no validation and no
raise, so at input_tokens = -5 it returns an ordinary record (with a negative
cost), contradicting the claim that negative inputs raise. -/
theorem counterexample_C8 :
    calculateUsageMeta (some ⟨-5, 0, 0⟩) false =
      some ⟨-5, 0, -(1/100000), none⟩ := by
  norm_num [calculateUsageMeta, calculateUsage, PRICING_input_short,
    PRICING_output_short]

/-- Claim C8, amended: the usage calculation is a pure total function that
never raises; it returns None exactly when the response carries no usage
metadata, and a record for every integer token-count input, negative values
included — the code performs no negative-input validation. -/
theorem claim_C8 (meta : Option UsageMetadata) (b : Bool) :
    (calculateUsageMeta meta b).isSome = meta.isSome := by
  cases meta <;> rfl

/-- Claim C9, counterexample: when no cache handle is obtained and kb_context
is provided, the knowledge-base text need not appear in the prompt — a truthy
custom_prompt replaces the entire built prompt.  Concretely, with caching
disabled, kb_context = kbSentinel and custom_prompt = "Custom prompt", the
prompt sent is exactly "Custom prompt", which cannot contain the 28-character
kbSentinel since it is only 13 characters long. -/
theorem counterexample_C9 :
    (interpret false "gemini-3-pro-preview" initState (fun _ => "h")
      (Except.ok ()) (Except.error "no create") [] (Except.ok ⟨some "ok", none⟩)
      none none none none (some kbSentinel) (some "Custom prompt")).cache_name
      = none ∧
    optStrTruthy (some kbSentinel) = true ∧
    (interpret false "gemini-3-pro-preview" initState (fun _ => "h")
      (Except.ok ()) (Except.error "no create") [] (Except.ok ⟨some "ok", none⟩)
      none none none none (some kbSentinel) (some "Custom prompt")).prompt
      = "Custom prompt" ∧
    ¬ inlineIn kbSentinel
      (interpret false "gemini-3-pro-preview" initState (fun _ => "h")
        (Except.ok ()) (Except.error "no create") [] (Except.ok ⟨some "ok", none⟩)
        none none none none (some kbSentinel) (some "Custom prompt")).prompt := by
  refine ⟨rfl, by decide, rfl, ?_⟩
  rintro ⟨a, b, hab⟩
  have hl := congrArg String.length hab
  rw [String.length_append, String.length_append, kbSentinel_length] at hl
  have h13 : ("Custom prompt" : String).length = 13 := by decide
  rw [show (interpret false "gemini-3-pro-preview" initState (fun _ => "h")
      (Except.ok ()) (Except.error "no create") [] (Except.ok ⟨some "ok", none⟩)
      none none none none (some kbSentinel) (some "Custom prompt")).prompt
      = "Custom prompt" from rfl, h13] at hl
  omega

/-- Claim C9, amended: when `interpret` obtains a truthy cache identifier, the
contents sent to the generation call contain no PDF part and the prompt is the
one built with the knowledge-base context suppressed; when it obtains no
truthy identifier, kb_context is truthy and no custom prompt is supplied, the
knowledge-base text appears inline in the prompt (a truthy custom prompt
replaces the whole built prompt). -/
theorem claim_C9 :
    (∀ (enable : Bool) (model : String) (st : CacheState)
      (fp : String → String) (rr : Except String Unit)
      (cr : Except String CreateResp) (pdfs : List String)
      (gen : Except String GenResponse)
      (fig data context focus kb cp : Option String),
      optStrTruthy (interpret enable model st fp rr cr pdfs gen
        fig data context focus kb cp).cache_name = true →
      ((interpret enable model st fp rr cr pdfs gen
        fig data context focus kb cp).contents.filter ContentPart.isPdf = [] ∧
       (interpret enable model st fp rr cr pdfs gen
        fig data context focus kb cp).prompt = buildPrompt context focus none cp)) ∧
    (∀ (enable : Bool) (model : String) (st : CacheState)
      (fp : String → String) (rr : Except String Unit)
      (cr : Except String CreateResp) (pdfs : List String)
      (gen : Except String GenResponse)
      (fig data context focus kb cp : Option String),
      optStrTruthy (interpret enable model st fp rr cr pdfs gen
        fig data context focus kb cp).cache_name = false →
      optStrTruthy kb = true → optStrTruthy cp = false →
      inlineIn (kb.getD "") (interpret enable model st fp rr cr pdfs gen
        fig data context focus kb cp).prompt) := by
  constructor
  · intro enable model st fp rr cr pdfs gen fig data context focus kb cp h
    rw [interpret_cache_name] at h
    rw [interpret_contents_eq, interpret_prompt]
    unfold interpretContents interpretPrompt
    rw [h]
    constructor
    · cases fig <;> cases data <;>
        simp [ContentPart.isPdf, List.filter_append]
    · rfl
  · intro enable model st fp rr cr pdfs gen fig data context focus kb cp h hkb hcp
    rw [interpret_prompt] at *
    unfold interpretPrompt
    rw [interpret_cache_name] at h
    rw [h]
    simp only [Bool.false_eq_true, if_false]
    exact buildPrompt_inline context focus kb cp hkb hcp

/-- Witness for claim C9: part one at a concrete run that obtains a cache
(caching enabled, large content, create succeeding, one uploaded PDF), part
two at a concrete run that obtains none (caching disabled). -/
theorem claim_C9_witness :
    optStrTruthy (interpret true "gemini-2.5-flash" initState fpConst
      (Except.ok ()) (Except.ok ⟨"caches/kb", some 3000⟩) ["gs://pdf1"]
      (Except.ok ⟨some "ok", none⟩) none none none none (some kbA)
      none).cache_name = true ∧
    (interpret true "gemini-2.5-flash" initState fpConst
      (Except.ok ()) (Except.ok ⟨"caches/kb", some 3000⟩) ["gs://pdf1"]
      (Except.ok ⟨some "ok", none⟩) none none none none (some kbA)
      none).contents.filter ContentPart.isPdf = [] ∧
    (interpret true "gemini-2.5-flash" initState fpConst
      (Except.ok ()) (Except.ok ⟨"caches/kb", some 3000⟩) ["gs://pdf1"]
      (Except.ok ⟨some "ok", none⟩) none none none none (some kbA)
      none).prompt = buildPrompt none none none none ∧
    optStrTruthy (interpret false "gemini-3-pro-preview" initState fpConst
      (Except.ok ()) (Except.error "no create") [] (Except.ok ⟨some "ok", none⟩)
      none none none none (some kbSentinel) none).cache_name = false ∧
    inlineIn kbSentinel
      (interpret false "gemini-3-pro-preview" initState fpConst
        (Except.ok ()) (Except.error "no create") []
        (Except.ok ⟨some "ok", none⟩)
        none none none none (some kbSentinel) none).prompt := by
  have hcn : (interpret true "gemini-2.5-flash" initState fpConst
      (Except.ok ()) (Except.ok ⟨"caches/kb", some 3000⟩) ["gs://pdf1"]
      (Except.ok ⟨some "ok", none⟩) none none none none (some kbA)
      none).cache_name = some "caches/kb" := by
    rw [interpret_cache_name]
    unfold interpretCacheStep
    rw [if_pos ⟨optStrTruthy_some kbA kbA_ne_empty, rfl⟩]
    simp [createKbCache, shouldCache_flash_kbA, doCreate, initState,
      optStrTruthy_none]
  have hyp1 : optStrTruthy (interpret true "gemini-2.5-flash" initState fpConst
      (Except.ok ()) (Except.ok ⟨"caches/kb", some 3000⟩) ["gs://pdf1"]
      (Except.ok ⟨some "ok", none⟩) none none none none (some kbA)
      none).cache_name = true := by
    rw [hcn]
    exact optStrTruthy_some "caches/kb" (by decide)
  have h1 := claim_C9.1 true "gemini-2.5-flash" initState fpConst
    (Except.ok ()) (Except.ok ⟨"caches/kb", some 3000⟩) ["gs://pdf1"]
    (Except.ok ⟨some "ok", none⟩) none none none none (some kbA) none hyp1
  have hyp2 : optStrTruthy (interpret false "gemini-3-pro-preview" initState
      fpConst (Except.ok ()) (Except.error "no create") []
      (Except.ok ⟨some "ok", none⟩)
      none none none none (some kbSentinel) none).cache_name = false := rfl
  have h2 := claim_C9.2 false "gemini-3-pro-preview" initState fpConst
    (Except.ok ()) (Except.error "no create") [] (Except.ok ⟨some "ok", none⟩)
    none none none none (some kbSentinel) none hyp2 (by decide) rfl
  exact ⟨hyp1, h1.1, h1.2, hyp2, h2⟩

/-- Claim C10: `interpret` never propagates an exception raised by the remote
generation call — whenever `generate_content` raises, `interpret` returns an
InterpretationResult whose text is the error message and whose usage is None,
for every combination of the remaining inputs. -/
theorem claim_C10 (enable : Bool) (model : String) (st : CacheState)
    (fp : String → String) (rr : Except String Unit)
    (cr : Except String CreateResp) (pdfs : List String) (e : String)
    (fig data context focus kb cp : Option String) :
    (interpret enable model st fp rr cr pdfs (Except.error e)
      fig data context focus kb cp).result =
      ⟨"❌ **Error**: " ++ e, "gemini-3", none, none⟩ := by
  rfl

end Kanoa
